import Mathlib

/-!
# Van rental booking backend: shallow embedding and verification

A shallow embedding of the van-services rental backend (FastAPI + SQLite):
the entity store, the availability resolver
(`VehicleDB.get_available_vehicles` in src/database/models.py), the booking
commit protocol (`create_booking` in src/routes/bookings.py), the
cancellation protocol (`BookingDB.delete` and `cancel_booking`), and the
Schedule-index variant of the commit protocol (`create_booking` in
src/main.py).

Dates are modelled as natural numbers (day indices): the code stores ISO-8601
calendar dates and compares them as ISO strings in SQL, and lexicographic
order on ISO date strings agrees with calendar order, so `Nat` with its usual
order is a faithful model.  Money (Python `Decimal`) is modelled as `ℚ`:
`Decimal` arithmetic on the operations the code performs (multiplication by an
integer day count) is exact rational arithmetic.  The SQLite store is modelled
as lists of rows; a full-table scan enumerates rows in primary-key (rowid)
order, which the embedding reflects as a sortedness hypothesis on the row
lists where order matters.
-/

namespace VanServices

/-- A row of the `vehicles` table (src/database/models.py, model/vehicle.py). -/
structure Vehicle where
  id : Nat
  category : String
  manufacturer : String
  model : String
  daily_rental_rate : ℚ
  number_of_seats : Nat
  branch_id : Nat
deriving DecidableEq, Repr

/-- A row of the `branches` table (src/database/models.py, model/branch.py). -/
structure Branch where
  branch_id : Nat
  branch_name : String
  address : String
deriving DecidableEq, Repr

/-- A row of the `bookings` table (src/database/models.py, model/booking.py). -/
structure Booking where
  booking_id : Nat
  vehicle_id : Nat
  start_date : Nat
  end_date : Nat
  customer_name : String
  cost : ℚ
  branch_id : Nat
deriving DecidableEq, Repr

/-- The SQLite database of the date-range schema: the three tables plus the
autoincrement counter for booking ids (`cursor.lastrowid` in
`BookingDB.create`). -/
structure Store where
  branches : List Branch
  vehicles : List Vehicle
  bookings : List Booking
  nextBookingId : Nat
deriving Repr

/-- The three-disjunct conflict test of the subquery in
`VehicleDB.get_available_vehicles` (src/database/models.py lines 70-76), with
the query parameters bound in the order the code passes them:
`(end_date, start_date)`, `(start_date, start_date)`, `(start_date, end_date)`. -/
def bookingConflict3 (start_date end_date : Nat) (b : Booking) : Bool :=
  (decide (b.start_date ≤ end_date) && decide (b.end_date ≥ start_date))
  || (decide (b.start_date ≤ start_date) && decide (b.end_date ≥ start_date))
  || (decide (b.start_date ≥ start_date) && decide (b.end_date ≤ end_date))

/-- The single interval-overlap predicate of the spec: two inclusive ranges
overlap iff `b.start_date <= end_date AND b.end_date >= start_date`. -/
def overlaps (start_date end_date : Nat) (b : Booking) : Prop :=
  b.start_date ≤ end_date ∧ start_date ≤ b.end_date

instance (s e : Nat) (b : Booking) : Decidable (overlaps s e b) := by
  unfold overlaps; infer_instance

/-- The inner subquery of `VehicleDB.get_available_vehicles`: the vehicle ids
of every booking that conflicts with the requested window. -/
def conflictingVehicleIds (start_date end_date : Nat) (bookings : List Booking) : List Nat :=
  (bookings.filter (bookingConflict3 start_date end_date)).map (·.vehicle_id)

namespace VehicleDB

/-- `VehicleDB.get_available_vehicles` (src/database/models.py lines 60-95):
vehicles of the requested category and branch whose id is not among the
vehicle ids of conflicting bookings.  The row order is the table-scan order of
the `vehicles` table. -/
def get_available_vehicles (category : String) (start_date end_date : Nat)
    (branch_id : Nat) (st : Store) : List Vehicle :=
  st.vehicles.filter (fun v =>
    v.category == category && v.branch_id == branch_id
      && !((conflictingVehicleIds start_date end_date st.bookings).contains v.id))

end VehicleDB

namespace BranchDB

/-- `BranchDB.get_by_id` (src/database/models.py): the first `branches` row
with the given id. -/
def get_by_id (branch_id : Nat) (st : Store) : Option Branch :=
  st.branches.find? (fun b => b.branch_id == branch_id)

end BranchDB

/-- The exact three-field match of `BookingDB.delete` (src/database/models.py
lines 156-170): `booking_id = ? AND start_date = ? AND customer_name = ?`. -/
def cancelMatch (booking_id start_date : Nat) (customer_name : String)
    (b : Booking) : Bool :=
  b.booking_id == booking_id && b.start_date == start_date
    && b.customer_name == customer_name

namespace BookingDB

/-- `BookingDB.delete` (src/database/models.py lines 151-175): fetch a row
matching all three fields; if none, return `false` leaving the store
unchanged; otherwise delete every matching row and return whether a row was
deleted (which is `true`, since a match was just fetched). -/
def delete (booking_id start_date : Nat) (customer_name : String) (st : Store) :
    Bool × Store :=
  if st.bookings.any (cancelMatch booking_id start_date customer_name) then
    (true, { st with bookings :=
      st.bookings.filter (fun b => !cancelMatch booking_id start_date customer_name b) })
  else
    (false, st)

/-- `BookingDB.create` (src/database/models.py lines 136-149): insert the
booking, assigning it the autoincrement id. -/
def create (b : Booking) (st : Store) : Booking × Store :=
  let b' := { b with booking_id := st.nextBookingId }
  (b', { st with bookings := st.bookings ++ [b'], nextBookingId := st.nextBookingId + 1 })

end BookingDB

/-- The request body of `POST /booking` (src/model/booking.py,
`BookingCreate`). -/
structure BookingCreate where
  category : String
  start_date : Nat
  end_date : Nat
  customer_name : String
  branch_id : Nat
deriving DecidableEq, Repr

/-- The `HTTPException(status_code=400, ...)` rejections of `create_booking`
(src/routes/bookings.py lines 90-115), in source order, each carrying the data
its detail string names. -/
inductive BookingError where
  | branchNotFound (branch_id : Nat)
  | invalidDateRange
  | startInPast
  | noAvailability (category : String) (branch_id : Nat) (start_date end_date : Nat)
deriving DecidableEq, Repr

/-- The booking commit protocol, `create_booking` in src/routes/bookings.py
lines 90-136: validate the branch, the date order and the start date against
today, resolve availability, select the first candidate, compute
`cost = daily_rental_rate * ((end_date - start_date).days + 1)` and persist
the booking. -/
def create_booking (today : Nat) (req : BookingCreate) (st : Store) :
    Except BookingError (Booking × Store) :=
  match BranchDB.get_by_id req.branch_id st with
  | none => .error (.branchNotFound req.branch_id)
  | some _ =>
    if req.start_date > req.end_date then
      .error .invalidDateRange
    else if req.start_date < today then
      .error .startInPast
    else
      match VehicleDB.get_available_vehicles req.category req.start_date
          req.end_date req.branch_id st with
      | [] => .error (.noAvailability req.category req.branch_id
          req.start_date req.end_date)
      | selected :: _ =>
        let rental_days : ℤ := (req.end_date : ℤ) - (req.start_date : ℤ) + 1
        let cost : ℚ := selected.daily_rental_rate * (rental_days : ℚ)
        let booking : Booking :=
          { booking_id := 0
            vehicle_id := selected.id
            start_date := req.start_date
            end_date := req.end_date
            customer_name := req.customer_name
            cost := cost
            branch_id := req.branch_id }
        .ok (BookingDB.create booking st)

/-- The cancellation route, `cancel_booking` in src/routes/bookings.py lines
139-176: delegate to `BookingDB.delete`; a failed match raises one fixed 404
detail (the same whether the booking does not exist or a credential field
mismatches), success returns one fixed confirmation message. -/
def cancel_booking (booking_id start_date : Nat) (customer_name : String)
    (st : Store) : Except String String × Store :=
  let r := BookingDB.delete booking_id start_date customer_name st
  if r.1 then
    (.ok "Booking cancelled successfully", r.2)
  else
    (.error "Booking not found or invalid credentials", r.2)

/-! ## The Schedule-index schema variant (src/main.py)

src/main.py is the duration-based variant: bookings carry no branch, and a
per-day `schedule` table mirrors booking occupancy.  Its `create_booking`
persists the Booking with `BookingDB.create` and then inserts one Schedule
row per rented day with `ScheduleDB.create`, one call per day.  Each store
call opens its own connection and commits before returning (the pattern of
every `*DB` method in src/database, and spec §9: "each store call opens and
closes its own connection"), so the variant's commit protocol is a sequence
of separately committed store states; the embedding exposes that sequence. -/

/-- A row of the `schedule` table (src/model/schedule.py). -/
structure Schedule where
  date : Nat
  vehicle_id : Nat
  status : String
  booking_id : Option Nat
deriving DecidableEq, Repr

/-- A booking of the duration-based variant: the `Booking(...)` constructor
call in src/main.py lines 84-91 passes no branch. -/
structure SchedBooking where
  booking_id : Nat
  vehicle_id : Nat
  start_date : Nat
  end_date : Nat
  customer_name : String
  cost : ℚ
deriving DecidableEq, Repr

/-- `VehicleSearchResult` (src/model/search.py): what the schedule-variant
availability search returns per vehicle. -/
structure VehicleSearchResult where
  vehicle_id : Nat
  category : String
  manufacturer : String
  model : String
  daily_rental_rate : ℚ
  number_of_seats : Nat
  total_cost : ℚ
deriving DecidableEq, Repr

/-- The store of the duration-based variant. -/
structure SchedStore where
  vehicles : List Vehicle
  bookings : List SchedBooking
  schedules : List Schedule
  nextBookingId : Nat
deriving Repr

/-- The request body of the schedule-variant `POST /booking`
(`BookingCreate` as src/main.py uses it: category, start_date, duration,
customer_name). -/
structure SchedBookingCreate where
  category : String
  start_date : Nat
  duration : Nat
  customer_name : String
deriving DecidableEq, Repr

namespace ScheduleDB

/-- Modelled from the spec: `ScheduleDB.search_available_vehicles` is called
from src/main.py and src/routes/schedules.py and imported from
`database.models`, but no source file under src defines it.  Spec §4.1
(Schedule-index variant): "availability is: vehicle has category match AND no
Schedule row exists for ANY date in the requested
[start_date, start_date+duration) window", and §6: the search result carries
the vehicle fields plus the total cost for the window. -/
def search_available_vehicles (category : String) (start_date duration : Nat)
    (st : SchedStore) : List VehicleSearchResult :=
  (st.vehicles.filter (fun v =>
    v.category == category
      && (List.range duration).all (fun day =>
        !(st.schedules.any (fun s =>
          s.vehicle_id == v.id && s.date == start_date + day))))).map
    (fun v =>
      { vehicle_id := v.id
        category := v.category
        manufacturer := v.manufacturer
        model := v.model
        daily_rental_rate := v.daily_rental_rate
        number_of_seats := v.number_of_seats
        total_cost := v.daily_rental_rate * (duration : ℚ) })

/-- Modelled from the spec: `ScheduleDB.create` is called from src/main.py
but not defined under src.  It inserts one schedule row, committing in its
own store call (spec §3: schedule rows are "created alongside the booking";
§9: "each store call opens and closes its own connection"). -/
def create (entry : Schedule) (st : SchedStore) : SchedStore :=
  { st with schedules := st.schedules ++ [entry] }

end ScheduleDB

/-- The committed store states produced by the schedule-insert loop of
src/main.py lines 96-104: one `ScheduleDB.create` call (its own commit) per
day of the rented window, in day order. -/
def scheduleCommitStates (vehicle_id booking_id start_date : Nat) :
    List Nat → SchedStore → List SchedStore
  | [], _ => []
  | day :: rest, st =>
    let st' := ScheduleDB.create
      { date := start_date + day
        vehicle_id := vehicle_id
        status := "booked"
        booking_id := some booking_id } st
    st' :: scheduleCommitStates vehicle_id booking_id start_date rest st'

/-- The schedule-variant commit protocol, `create_booking` in src/main.py
lines 61-106, as the sequence of store states committed on the success path:
the state after `BookingDB.create` commits, then the state after each
`ScheduleDB.create` commits.  The caller observes the last state when every
call succeeds; an execution that fails after `k` commits leaves the `k`-th
state as the durable one. -/
def createBookingSchedStates (req : SchedBookingCreate) (st : SchedStore) :
    Except String (List SchedStore) :=
  match ScheduleDB.search_available_vehicles req.category req.start_date
      req.duration st with
  | [] => .error "No vehicles available"
  | selected :: _ =>
    let end_date := req.start_date + req.duration - 1
    let booking : SchedBooking :=
      { booking_id := st.nextBookingId
        vehicle_id := selected.vehicle_id
        start_date := req.start_date
        end_date := end_date
        customer_name := req.customer_name
        cost := selected.total_cost }
    let st1 : SchedStore :=
      { st with bookings := st.bookings ++ [booking]
                nextBookingId := st.nextBookingId + 1 }
    .ok (st1 :: scheduleCommitStates selected.vehicle_id booking.booking_id
      req.start_date (List.range req.duration) st1)

/-! ## The optional-filter search paths of `search_available_vehicles`
(src/routes/availability.py lines 54-111) -/

/-- The per-vehicle availability check the partial-filter paths perform: call
the resolver with the vehicle's own category and branch and test whether the
vehicle's id appears in the result (`any(av.id == vehicle.id ...)`,
src/routes/availability.py lines 70-78). -/
def availableViaSelfCheck (start_date end_date : Nat) (st : Store)
    (v : Vehicle) : Bool :=
  (VehicleDB.get_available_vehicles v.category start_date end_date
    v.branch_id st).any (fun av => av.id == v.id)

/-- The both-filters path (src/routes/availability.py lines 55-62): one
resolver call with the requested category and branch. -/
def search_both_filters (category : String) (branch_id start_date end_date : Nat)
    (st : Store) : List Vehicle :=
  VehicleDB.get_available_vehicles category start_date end_date branch_id st

/-- The category-only path (src/routes/availability.py lines 63-78): filter
all vehicles by category, then keep those passing the per-vehicle
self-check. -/
def search_category_only (category : String) (start_date end_date : Nat)
    (st : Store) : List Vehicle :=
  (st.vehicles.filter (fun v => v.category == category)).filter
    (availableViaSelfCheck start_date end_date st)

/-- The branch-only path (src/routes/availability.py lines 80-95): filter all
vehicles by branch, then keep those passing the per-vehicle self-check. -/
def search_branch_only (branch_id start_date end_date : Nat)
    (st : Store) : List Vehicle :=
  (st.vehicles.filter (fun v => v.branch_id == branch_id)).filter
    (availableViaSelfCheck start_date end_date st)

/-! ## The no-overlap invariant and the request-level transition system -/

/-- Two bookings on the same vehicle occupy disjoint inclusive ranges. -/
def DisjointOnVehicle (b1 b2 : Booking) : Prop :=
  b1.vehicle_id = b2.vehicle_id →
    b2.end_date < b1.start_date ∨ b1.end_date < b2.start_date

instance : DecidableRel DisjointOnVehicle := fun b1 b2 => by
  unfold DisjointOnVehicle; infer_instance

/-- The no-overlap invariant of the booking store: no two bookings of the
same vehicle have overlapping inclusive ranges. -/
def NoOverlap (bookings : List Booking) : Prop :=
  bookings.Pairwise DisjointOnVehicle

instance (bookings : List Booking) : Decidable (NoOverlap bookings) := by
  unfold NoOverlap; infer_instance

/-- A state-changing client operation: a `POST /booking` or a
`POST /booking/cancel` request. -/
inductive Op where
  | create (today : Nat) (req : BookingCreate)
  | cancel (booking_id start_date : Nat) (customer_name : String)

/-- The store after handling one request: a rejected booking request (an
HTTP 400) writes nothing, a failed cancellation leaves the store unchanged
(which `BookingDB.delete` already models). -/
def applyOp (st : Store) : Op → Store
  | .create today req =>
    match create_booking today req st with
    | .ok (_, st') => st'
    | .error _ => st
  | .cancel booking_id start_date customer_name =>
    (BookingDB.delete booking_id start_date customer_name st).2

/-- The store after a sequence of client requests. -/
def runOps (st : Store) (ops : List Op) : Store :=
  ops.foldl applyOp st

/-! ## Concrete stores used to instantiate the theorems -/

/-- The branches of `insert_sample_data` (src/database/database.py). -/
def sampleBranches : List Branch :=
  [{ branch_id := 1, branch_name := "Downtown Branch", address := "123 Main Street, City Center" },
   { branch_id := 2, branch_name := "Airport Branch", address := "456 Airport Drive, Terminal 2" },
   { branch_id := 3, branch_name := "Suburban Branch", address := "789 Oak Avenue, Suburbia Mall" }]

/-- The vehicles of `insert_sample_data` (src/database/database.py). -/
def sampleVehicles : List Vehicle :=
  [{ id := 1, category := "Small", manufacturer := "Ford", model := "Courier",
     daily_rental_rate := 55, number_of_seats := 8, branch_id := 1 },
   { id := 2, category := "Medium", manufacturer := "Ford", model := "Transit",
     daily_rental_rate := 85, number_of_seats := 2, branch_id := 2 },
   { id := 3, category := "Large", manufacturer := "Ford", model := "Jumbo",
     daily_rental_rate := 95, number_of_seats := 12, branch_id := 1 }]

/-- The bookings of `insert_sample_data`, with August 2024 dates encoded as
day-of-month indices (2024-08-15 ↦ 15, and so on). -/
def sampleBookings : List Booking :=
  [{ booking_id := 1, vehicle_id := 1, start_date := 15, end_date := 20,
     customer_name := "John Smith", cost := 375, branch_id := 1 },
   { booking_id := 2, vehicle_id := 2, start_date := 18, end_date := 22,
     customer_name := "Jane Doe", cost := 220, branch_id := 2 },
   { booking_id := 3, vehicle_id := 3, start_date := 25, end_date := 30,
     customer_name := "Bob Johnson", cost := 475, branch_id := 1 }]

/-- The sample-data store. -/
def sampleStore : Store :=
  { branches := sampleBranches, vehicles := sampleVehicles,
    bookings := sampleBookings, nextBookingId := 4 }

/-- Sample vehicle 1, the Small Ford Courier at branch 1. -/
def smallCar : Vehicle :=
  { id := 1, category := "Small", manufacturer := "Ford", model := "Courier",
    daily_rental_rate := 55, number_of_seats := 8, branch_id := 1 }

/-- A store with two equally-available Medium vehicles, ids 3 and 7, at the
same branch. -/
def twinStore : Store :=
  { branches := [{ branch_id := 1, branch_name := "Downtown Branch",
                   address := "123 Main Street, City Center" }]
    vehicles :=
      [{ id := 3, category := "Medium", manufacturer := "Ford", model := "Transit",
         daily_rental_rate := 85, number_of_seats := 2, branch_id := 1 },
       { id := 7, category := "Medium", manufacturer := "Ford", model := "Transit",
         daily_rental_rate := 85, number_of_seats := 2, branch_id := 1 }]
    bookings := []
    nextBookingId := 1 }

/-- A booking request for the two-vehicle store: Medium at branch 1. -/
def twinReq : BookingCreate :=
  { category := "Medium", start_date := 5, end_date := 6,
    customer_name := "Pat", branch_id := 1 }

/-- A five-day booking request against the sample store: Medium at branch 2
(daily rate 85.00), days 40 to 44 inclusive. -/
def fiveDayReq : BookingCreate :=
  { category := "Medium", start_date := 40, end_date := 44,
    customer_name := "Jane", branch_id := 2 }

/-- A schedule-variant store with one Small vehicle and nothing booked. -/
def schedDemoStore : SchedStore :=
  { vehicles := [smallCar], bookings := [], schedules := [], nextBookingId := 1 }

/-- A schedule-variant booking request: Small, three days from day 100. -/
def schedDemoReq : SchedBookingCreate :=
  { category := "Small", start_date := 100, duration := 3,
    customer_name := "Alice" }

/-! ## Basic facts about the resolver -/

/-- A `false` three-disjunct conflict test implies in particular that the
first disjunct — the standard interval-overlap predicate — is false. -/
lemma conflict3_false_disjoint {s e : Nat} {b : Booking}
    (h : bookingConflict3 s e b = false) :
    e < b.start_date ∨ b.end_date < s := by
  by_cases h1 : b.start_date ≤ e <;> by_cases h2 : s ≤ b.end_date <;>
    simp [bookingConflict3, h1, h2] at h ⊢ <;> omega

/-- Membership in the conflicting-vehicle-ids subquery result. -/
lemma mem_conflictingVehicleIds {s e : Nat} {bookings : List Booking} {vid : Nat} :
    vid ∈ conflictingVehicleIds s e bookings ↔
      ∃ b ∈ bookings, bookingConflict3 s e b = true ∧ b.vehicle_id = vid := by
  simp [conflictingVehicleIds, List.mem_map, List.mem_filter]
  constructor
  · rintro ⟨b, ⟨hb, hc⟩, hv⟩; exact ⟨b, hb, hc, hv⟩
  · rintro ⟨b, hb, hc, hv⟩; exact ⟨b, ⟨hb, hc⟩, hv⟩

/-- Membership in the resolver's result, phrased against the code's
three-disjunct conflict predicate. -/
lemma mem_get_available_vehicles {category : String} {s e br : Nat}
    {st : Store} {v : Vehicle} :
    v ∈ VehicleDB.get_available_vehicles category s e br st ↔
      v ∈ st.vehicles ∧ v.category = category ∧ v.branch_id = br ∧
        ∀ b ∈ st.bookings, bookingConflict3 s e b = true → b.vehicle_id ≠ v.id := by
  simp only [VehicleDB.get_available_vehicles, List.mem_filter, Bool.and_eq_true,
    Bool.not_eq_true', beq_iff_eq, List.contains_eq_any_beq, List.any_eq_false,
    beq_eq_false_iff_ne, ne_eq]
  constructor
  · rintro ⟨hv, ⟨hcat, hbr⟩, hno⟩
    refine ⟨hv, hcat, hbr, fun b hb hc hvid => ?_⟩
    exact hno v.id (mem_conflictingVehicleIds.mpr ⟨b, hb, hc, hvid⟩) rfl
  · rintro ⟨hv, hcat, hbr, hno⟩
    refine ⟨hv, ⟨hcat, hbr⟩, fun x hx => ?_⟩
    rcases mem_conflictingVehicleIds.mp hx with ⟨b, hb, hc, hvid⟩
    intro hxe
    exact hno b hb hc (hxe ▸ hvid)

/-- The code's three-disjunct conflict predicate agrees with the spec's
single interval-overlap predicate on a well-formed query window and a
well-formed booking. -/
lemma conflict3_eq_overlaps {s e : Nat} {b : Booking} (hse : s ≤ e)
    (hb : b.start_date ≤ b.end_date) :
    bookingConflict3 s e b = true ↔ (b.start_date ≤ e ∧ s ≤ b.end_date) := by
  unfold bookingConflict3
  simp only [Bool.or_eq_true, Bool.and_eq_true, decide_eq_true_eq, ge_iff_le]
  omega

/-! ## C2: resolver exactness -/

/-- C2.  A vehicle appears in the availability resolver's result iff its
category and branch match the request and none of its existing bookings
overlaps the requested inclusive window, where overlap is the single
predicate `b.start_date ≤ end_date ∧ start_date ≤ b.end_date`; the code's
three-disjunct conflict test is equivalent to this single predicate for a
well-formed window and well-formed bookings.  A vehicle with zero bookings is
always available, a booking ending exactly on the requested start date
conflicts, and a booking ending the day before does not. -/
theorem resolver_exact_overlap_characterization
    (category : String) (s e br : Nat) (st : Store) (v : Vehicle)
    (hse : s ≤ e) (hwf : ∀ b ∈ st.bookings, b.start_date ≤ b.end_date) :
    v ∈ VehicleDB.get_available_vehicles category s e br st ↔
      v ∈ st.vehicles ∧ v.category = category ∧ v.branch_id = br ∧
        ∀ b ∈ st.bookings, b.vehicle_id = v.id →
          ¬(b.start_date ≤ e ∧ s ≤ b.end_date) := by
  rw [mem_get_available_vehicles]
  refine and_congr_right fun _ => and_congr_right fun _ => and_congr_right fun _ => ?_
  constructor
  · intro h b hb hvid hov
    exact h b hb ((conflict3_eq_overlaps hse (hwf b hb)).mpr hov) hvid
  · intro h b hb hc hvid
    exact h b hb hvid ((conflict3_eq_overlaps hse (hwf b hb)).mp hc)

/-- Witness for C2, the spec's boundary test on the sample data: vehicle 1
carries the booking [Aug 15, Aug 20], so it appears in the search for
[Aug 21, Aug 25] and not in the search for [Aug 18, Aug 22]. -/
theorem resolver_exact_overlap_characterization_witness :
    smallCar ∈ VehicleDB.get_available_vehicles "Small" 21 25 1 sampleStore
    ∧ smallCar ∉ VehicleDB.get_available_vehicles "Small" 18 22 1 sampleStore := by
  constructor
  · exact (resolver_exact_overlap_characterization "Small" 21 25 1 sampleStore
      smallCar (by decide) (by decide)).mpr (by decide)
  · intro hmem
    exact absurd ((resolver_exact_overlap_characterization "Small" 18 22 1
      sampleStore smallCar (by decide) (by decide)).mp hmem) (by decide)

/-! ## C3: the Schedule-variant commit protocol is not atomic -/

/-- C3 evidence.  On a one-vehicle store, a three-day booking request in the
Schedule-index variant produces four separately committed store states: the
state after the Booking insert commits already exposes the booking with zero
Schedule rows (so an execution interrupted after that first commit durably
leaves a Booking with no Schedule rows), and the remaining per-day commits
add the three Schedule rows one at a time.  The Booking row never changes
after the first commit, so each of the three intermediate states is a
partially scheduled state the claim says must never be observable. -/
theorem schedule_commit_partial_state :
    ∃ s0 s1 s2 s3,
      createBookingSchedStates schedDemoReq schedDemoStore = .ok [s0, s1, s2, s3]
      ∧ s0.bookings.length = 1 ∧ s0.schedules.length = 0
      ∧ s1.schedules.length = 1 ∧ s2.schedules.length = 2
      ∧ s3.schedules.length = 3
      ∧ s0.bookings = s3.bookings := by
  refine ⟨_, _, _, _, rfl, rfl, rfl, rfl, rfl, rfl, rfl⟩

/-! ## C1: the no-overlap invariant is preserved -/

/-- A successful `create_booking` appends a booking on a vehicle none of
whose existing bookings conflict with the new window. -/
lemma create_booking_ok_shape {today : Nat} {req : BookingCreate} {st : Store}
    {bk : Booking} {st' : Store}
    (h : create_booking today req st = .ok (bk, st')) :
    ∃ sel rest,
      VehicleDB.get_available_vehicles req.category req.start_date
        req.end_date req.branch_id st = sel :: rest ∧
      req.start_date ≤ req.end_date ∧ today ≤ req.start_date ∧
      bk = { booking_id := st.nextBookingId
             vehicle_id := sel.id
             start_date := req.start_date
             end_date := req.end_date
             customer_name := req.customer_name
             cost := sel.daily_rental_rate *
               (((req.end_date : ℤ) - (req.start_date : ℤ) + 1 : ℤ) : ℚ)
             branch_id := req.branch_id } ∧
      st' = { st with bookings := st.bookings ++ [bk]
                      nextBookingId := st.nextBookingId + 1 } := by
  unfold create_booking at h
  cases hbr : BranchDB.get_by_id req.branch_id st with
  | none => rw [hbr] at h; exact absurd h (by simp)
  | some br =>
    rw [hbr] at h
    by_cases h1 : req.start_date > req.end_date
    · simp [h1] at h
    by_cases h2 : req.start_date < today
    · simp [h1, h2] at h
    cases hav : VehicleDB.get_available_vehicles req.category req.start_date
        req.end_date req.branch_id st with
    | nil => rw [if_neg h1, if_neg h2, hav] at h; exact absurd h (by simp)
    | cons sel rest =>
      rw [if_neg h1, if_neg h2, hav] at h
      simp only [BookingDB.create, Except.ok.injEq, Prod.mk.injEq] at h
      refine ⟨sel, rest, rfl, by omega, by omega, ?_, ?_⟩
      · exact h.1.symm
      · rw [← h.1, ← h.2]

/-- One handled request preserves the no-overlap invariant. -/
lemma applyOp_preserves_noOverlap {st : Store} (op : Op)
    (h : NoOverlap st.bookings) : NoOverlap (applyOp st op).bookings := by
  cases op with
  | cancel booking_id start_date customer_name =>
    simp only [applyOp, BookingDB.delete]
    split
    · exact List.Pairwise.sublist (List.filter_sublist _) h
    · exact h
  | create today req =>
    simp only [applyOp]
    cases hc : create_booking today req st with
    | error e => exact h
    | ok p =>
      obtain ⟨bk, st'⟩ := p
      obtain ⟨sel, rest', hav, hse, hts, hbk, hst'⟩ := create_booking_ok_shape hc
      subst hst'
      simp only [NoOverlap, List.pairwise_append]
      refine ⟨h, List.pairwise_singleton _ _, ?_⟩
      intro b1 hb1 b2 hb2
      simp only [List.mem_singleton] at hb2
      subst hb2
      have hsel : sel ∈ VehicleDB.get_available_vehicles req.category
          req.start_date req.end_date req.branch_id st := by
        rw [hav]; exact List.mem_cons_self _ _
      have hno := (mem_get_available_vehicles.mp hsel).2.2.2
      intro hveq
      cases hcb : bookingConflict3 req.start_date req.end_date b1 with
      | true =>
        exact absurd (hveq.trans (by rw [hbk])) (hno b1 hb1 hcb)
      | false =>
        have hd := conflict3_false_disjoint hcb
        subst hbk
        simp only at hveq ⊢
        omega

/-- C1.  For every state reachable from an overlap-free initial state by any
sequence of `create_booking` and `cancel_booking` operations, no two bookings
for the same vehicle have overlapping inclusive `[start_date, end_date]`
ranges. -/
theorem no_overlap_invariant_reachable (st : Store) (ops : List Op)
    (h : NoOverlap st.bookings) : NoOverlap (runOps st ops).bookings := by
  induction ops generalizing st with
  | nil => exact h
  | cons op rest ih => exact ih _ (applyOp_preserves_noOverlap op h)

/-- Witness for C1: the sample-data store is overlap-free, and stays so
after a booking request that books vehicle 1 for days 21-25 followed by a
cancellation of sample booking 1. -/
theorem no_overlap_invariant_reachable_witness :
    NoOverlap (runOps sampleStore
      [Op.create 10 { category := "Small", start_date := 21, end_date := 25,
                      customer_name := "Jane", branch_id := 1 },
       Op.cancel 1 15 "John Smith"]).bookings :=
  no_overlap_invariant_reachable sampleStore _ (by decide)

/-! ## C4: deterministic ordering and lowest-id selection -/

/-- C4.  On a store whose vehicle table is in ascending id order (SQLite
stores rows in a B-tree keyed by the autoincrement primary key, so a full
scan enumerates them so), the resolver returns vehicles in ascending id
order for every input, and every successful `create_booking` books the
available matching vehicle with the lowest id. -/
theorem resolver_sorted_and_lowest_id_selected (st : Store) (today : Nat)
    (req : BookingCreate)
    (hsort : st.vehicles.Pairwise (fun a b => a.id < b.id)) :
    (∀ category s e br,
      (VehicleDB.get_available_vehicles category s e br st).Pairwise
        (fun a b => a.id < b.id))
    ∧ (∀ bk st', create_booking today req st = .ok (bk, st') →
        ∃ sel ∈ VehicleDB.get_available_vehicles req.category req.start_date
            req.end_date req.branch_id st,
          bk.vehicle_id = sel.id ∧
          ∀ v ∈ VehicleDB.get_available_vehicles req.category req.start_date
              req.end_date req.branch_id st, sel.id ≤ v.id) := by
  have hres : ∀ category s e br,
      (VehicleDB.get_available_vehicles category s e br st).Pairwise
        (fun a b => a.id < b.id) :=
    fun _ _ _ _ => List.Pairwise.sublist (List.filter_sublist _) hsort
  refine ⟨hres, ?_⟩
  intro bk st' h
  obtain ⟨sel, rest', hav, _, _, hbk, _⟩ := create_booking_ok_shape h
  refine ⟨sel, by rw [hav]; exact List.mem_cons_self _ _, by rw [hbk], ?_⟩
  intro v hv
  have hps := hres req.category req.start_date req.end_date req.branch_id
  rw [hav] at hv hps
  rcases List.mem_cons.mp hv with hveq | hvrest
  · rw [hveq]
  · exact le_of_lt ((List.pairwise_cons.mp hps).1 v hvrest)

/-- Witness for C4: on the store with two equally-available Medium vehicles
with ids 3 and 7, the resolver output is ascending and the booking request
books vehicle 3. -/
theorem resolver_sorted_and_lowest_id_selected_witness :
    ((VehicleDB.get_available_vehicles "Medium" 5 6 1 twinStore).Pairwise
      (fun a b => a.id < b.id))
    ∧ (∃ bk st', create_booking 0 twinReq twinStore = .ok (bk, st')
        ∧ bk.vehicle_id = 3) := by
  have h := resolver_sorted_and_lowest_id_selected twinStore 0 twinReq (by decide)
  exact ⟨h.1 "Medium" 5 6 1, ⟨_, _, rfl, rfl⟩⟩

/-! ## C5: exact cost arithmetic -/

/-- C5.  Every booking persisted by a successful `create_booking` costs
exactly the selected vehicle's daily rate times
`(end_date - start_date).days + 1`, computed in exact (rational) arithmetic,
and that booking is the one persisted in the new store. -/
theorem booking_cost_exact (today : Nat) (req : BookingCreate) (st : Store)
    (bk : Booking) (st' : Store)
    (h : create_booking today req st = .ok (bk, st')) :
    ∃ v ∈ st.vehicles, v.id = bk.vehicle_id ∧
      bk.cost = v.daily_rental_rate *
        (((req.end_date : ℤ) - (req.start_date : ℤ) + 1 : ℤ) : ℚ)
      ∧ bk ∈ st'.bookings := by
  obtain ⟨sel, rest', hav, _, _, hbk, hst'⟩ := create_booking_ok_shape h
  have hsel : sel ∈ VehicleDB.get_available_vehicles req.category
      req.start_date req.end_date req.branch_id st := by
    rw [hav]; exact List.mem_cons_self _ _
  refine ⟨sel, (mem_get_available_vehicles.mp hsel).1, by rw [hbk],
    by rw [hbk], ?_⟩
  rw [hst']
  exact List.mem_append_right _ (List.mem_singleton_self bk)

/-- Witness for C5: booking the Medium vehicle (rate 85.00) for the five-day
window [40, 44] yields cost exactly 425. -/
theorem booking_cost_exact_witness :
    ∃ bk st', create_booking 0 fiveDayReq sampleStore = .ok (bk, st')
      ∧ bk.cost = (425 : ℚ)
      ∧ ∃ v ∈ sampleStore.vehicles, v.id = bk.vehicle_id ∧
          bk.cost = v.daily_rental_rate *
            (((fiveDayReq.end_date : ℤ) - (fiveDayReq.start_date : ℤ) + 1 : ℤ) : ℚ)
          ∧ bk ∈ st'.bookings := by
  refine ⟨_, _, rfl, ?_, booking_cost_exact 0 fiveDayReq sampleStore _ _ rfl⟩
  dsimp only [fiveDayReq]
  norm_num

/-! ## C6: cancellation requires an exact three-field match -/

/-- The SQL three-field match as field equations. -/
lemma cancelMatch_true_iff {booking_id start_date : Nat}
    {customer_name : String} {b : Booking} :
    cancelMatch booking_id start_date customer_name b = true ↔
      b.booking_id = booking_id ∧ b.start_date = start_date
        ∧ b.customer_name = customer_name := by
  simp [cancelMatch, Bool.and_eq_true, beq_iff_eq, and_assoc]

/-- C6.  Cancellation succeeds iff some booking matches all three credential
fields simultaneously; the surviving bookings are exactly those not matching
all three fields (so on failure the store is unchanged and on success
precisely the matching booking is removed); any mismatch produces the same
fixed failure response as a nonexistent booking, leaving the store as is; and
after a successful cancellation, repeating it returns that same failure
rather than an error. -/
theorem cancel_exact_three_field_match (booking_id start_date : Nat)
    (customer_name : String) (st : Store) :
    ((BookingDB.delete booking_id start_date customer_name st).1 = true ↔
      ∃ b ∈ st.bookings, b.booking_id = booking_id ∧ b.start_date = start_date
        ∧ b.customer_name = customer_name)
    ∧ ((BookingDB.delete booking_id start_date customer_name st).2.bookings
        = st.bookings.filter
            (fun b => !cancelMatch booking_id start_date customer_name b))
    ∧ ((¬∃ b ∈ st.bookings, b.booking_id = booking_id
          ∧ b.start_date = start_date ∧ b.customer_name = customer_name) →
        cancel_booking booking_id start_date customer_name st
          = (.error "Booking not found or invalid credentials", st))
    ∧ ((BookingDB.delete booking_id start_date customer_name st).1 = true →
        (cancel_booking booking_id start_date customer_name st).1
          = .ok "Booking cancelled successfully"
        ∧ (cancel_booking booking_id start_date customer_name
            ((cancel_booking booking_id start_date customer_name st).2)).1
          = .error "Booking not found or invalid credentials") := by
  have hiff : st.bookings.any (cancelMatch booking_id start_date customer_name)
      = true ↔
      ∃ b ∈ st.bookings, b.booking_id = booking_id ∧ b.start_date = start_date
        ∧ b.customer_name = customer_name := by
    simp only [List.any_eq_true, cancelMatch_true_iff]
  by_cases hany : st.bookings.any
      (cancelMatch booking_id start_date customer_name) = true
  · have hdel : BookingDB.delete booking_id start_date customer_name st
        = (true, { st with bookings := (st.bookings.filter
            (fun b => !cancelMatch booking_id start_date customer_name b)) }) := by
      simp [BookingDB.delete, hany]
    have hnomatch : ∀ b ∈ st.bookings.filter
        (fun b => !cancelMatch booking_id start_date customer_name b),
        cancelMatch booking_id start_date customer_name b = false := by
      intro b hb
      have := (List.mem_filter.mp hb).2
      simpa using this
    refine ⟨by rw [hdel]; simpa using hiff.mp hany, by rw [hdel], ?_, ?_⟩
    · intro hno
      exact absurd (hiff.mp hany) hno
    · intro _
      have hc1 : cancel_booking booking_id start_date customer_name st
          = (.ok "Booking cancelled successfully",
             { st with bookings := (st.bookings.filter
                 (fun b => !cancelMatch booking_id start_date customer_name b)) }) := by
        simp [cancel_booking, hdel]
      refine ⟨by rw [hc1], ?_⟩
      rw [hc1]
      have hany2 : (st.bookings.filter
          (fun b => !cancelMatch booking_id start_date customer_name b)).any
          (cancelMatch booking_id start_date customer_name) = false := by
        rw [List.any_eq_false]
        intro b hb
        simp [hnomatch b hb]
      simp [cancel_booking, BookingDB.delete, hany2]
  · have hdel : BookingDB.delete booking_id start_date customer_name st
        = (false, st) := by
      simp only [BookingDB.delete, if_neg hany]
    have hfilter : st.bookings.filter
        (fun b => !cancelMatch booking_id start_date customer_name b)
        = st.bookings := by
      rw [List.filter_eq_self]
      intro b hb
      have : cancelMatch booking_id start_date customer_name b = false := by
        rcases Bool.eq_false_or_eq_true
          (cancelMatch booking_id start_date customer_name b) with ht | hf
        · exact absurd (List.any_eq_true.mpr ⟨b, hb, ht⟩) hany
        · exact hf
      simp [this]
    refine ⟨?_, by rw [hdel, hfilter], ?_, ?_⟩
    · rw [hdel]
      constructor
      · intro h; exact absurd h (by simp)
      · intro hex; exact absurd (hiff.mpr hex) hany
    · intro _
      simp [cancel_booking, hdel]
    · intro h
      rw [hdel] at h
      exact absurd h (by simp)

/-! ## C7: preconditions are checked in a fixed order, first failure wins -/

/-- C7.  `create_booking` rejects with the branch error exactly when the
branch is missing; with the date-order error exactly when the branch exists
and `end_date < start_date`; with the past-start error exactly when the
branch exists, the dates are ordered and `start_date < today` (so a request
starting today passes that check); and with the no-availability error —
which names the requested category, branch and window — exactly when every
earlier check passes and the resolver returns no candidate. -/
theorem create_booking_first_failure_wins (today : Nat) (req : BookingCreate)
    (st : Store) :
    (create_booking today req st = .error (.branchNotFound req.branch_id) ↔
      BranchDB.get_by_id req.branch_id st = none)
    ∧ (create_booking today req st = .error .invalidDateRange ↔
      BranchDB.get_by_id req.branch_id st ≠ none
        ∧ req.end_date < req.start_date)
    ∧ (create_booking today req st = .error .startInPast ↔
      BranchDB.get_by_id req.branch_id st ≠ none
        ∧ req.start_date ≤ req.end_date ∧ req.start_date < today)
    ∧ (create_booking today req st = .error (.noAvailability req.category
        req.branch_id req.start_date req.end_date) ↔
      BranchDB.get_by_id req.branch_id st ≠ none
        ∧ req.start_date ≤ req.end_date ∧ today ≤ req.start_date
        ∧ VehicleDB.get_available_vehicles req.category req.start_date
            req.end_date req.branch_id st = [])
    ∧ (today = req.start_date →
        create_booking today req st ≠ .error .startInPast) := by
  unfold create_booking
  cases hbr : BranchDB.get_by_id req.branch_id st with
  | none => simp
  | some br =>
    by_cases h1 : req.start_date > req.end_date
    · rw [if_pos h1]
      refine ⟨by simp, by simp; omega, by simp; omega, by simp; omega,
        by simp⟩
    · rw [if_neg h1]
      by_cases h2 : req.start_date < today
      · rw [if_pos h2]
        refine ⟨by simp, by simp; omega, by simp; omega, by simp; omega,
          by intro he; omega⟩
      · rw [if_neg h2]
        cases hav : VehicleDB.get_available_vehicles req.category
            req.start_date req.end_date req.branch_id st with
        | nil =>
          refine ⟨by simp, by simp; omega, by simp; omega, by simp; omega,
            by simp⟩
        | cons sel rest =>
          refine ⟨by simp, by simp; omega, by simp; omega, by simp, by simp⟩

/-! ## C8: unknown categories and branches give an empty result, not an error -/

/-- C8.  When the requested category matches no vehicle in the store, or the
requested branch id matches no vehicle in the store (in particular when it
identifies no existing branch referenced by the fleet), the resolver returns
the empty list — it is a total function with no error outcome. -/
theorem resolver_unknown_filter_empty (category : String) (s e br : Nat)
    (st : Store)
    (h : (∀ v ∈ st.vehicles, v.category ≠ category)
       ∨ (∀ v ∈ st.vehicles, v.branch_id ≠ br)) :
    VehicleDB.get_available_vehicles category s e br st = [] := by
  rw [VehicleDB.get_available_vehicles, List.filter_eq_nil_iff]
  intro v hv
  rcases h with h | h
  · simp [h v hv]
  · simp [h v hv]

/-- Witness for C8 on the sample data: category "Bus" exists on no vehicle,
and branch id 99 is assigned to no vehicle; both searches return empty. -/
theorem resolver_unknown_filter_empty_witness :
    VehicleDB.get_available_vehicles "Bus" 21 25 1 sampleStore = []
    ∧ VehicleDB.get_available_vehicles "Small" 21 25 99 sampleStore = [] :=
  ⟨resolver_unknown_filter_empty "Bus" 21 25 1 sampleStore (by decide),
   resolver_unknown_filter_empty "Small" 21 25 99 sampleStore (by decide)⟩

/-! ## C9: filter combinations agree -/

/-- Resolver membership, phrased with the `NOT IN` subquery directly: the
availability part depends only on the vehicle's id and the requested window,
not on the requested category or branch. -/
lemma mem_get_available_vehicles_notin {category : String} {s e br : Nat}
    {st : Store} {v : Vehicle} :
    v ∈ VehicleDB.get_available_vehicles category s e br st ↔
      v ∈ st.vehicles ∧ v.category = category ∧ v.branch_id = br ∧
        v.id ∉ conflictingVehicleIds s e st.bookings := by
  rw [mem_get_available_vehicles]
  refine and_congr_right fun _ => and_congr_right fun _ =>
    and_congr_right fun _ => ?_
  constructor
  · intro h hmem
    rcases mem_conflictingVehicleIds.mp hmem with ⟨b, hb, hc, hid⟩
    exact h b hb hc hid
  · intro h b hb hc hid
    exact h (mem_conflictingVehicleIds.mpr ⟨b, hb, hc, hid⟩)

/-- The per-vehicle self-check of the partial-filter paths holds iff the
vehicle's id has no conflicting booking: the same availability predicate the
both-filters path applies. -/
lemma availableViaSelfCheck_true_iff {s e : Nat} {st : Store} {v : Vehicle}
    (hv : v ∈ st.vehicles) :
    availableViaSelfCheck s e st v = true ↔
      v.id ∉ conflictingVehicleIds s e st.bookings := by
  unfold availableViaSelfCheck
  rw [List.any_eq_true]
  constructor
  · rintro ⟨av, hav, hid⟩
    have h1 := (mem_get_available_vehicles_notin.mp hav).2.2.2
    have h2 : av.id = v.id := by simpa using hid
    rwa [h2] at h1
  · intro h
    exact ⟨v, mem_get_available_vehicles_notin.mpr ⟨hv, rfl, rfl, h⟩, by simp⟩

/-- C9.  A search with both filters set returns exactly the intersection of
the category-only search and the branch-only search: a vehicle is in the
both-filters result iff it is in both partial-filter results, because all
three paths apply the same per-vehicle availability predicate and differ
only in the candidate set. -/
theorem filter_intersection_equivalence (category : String)
    (branch_id start_date end_date : Nat) (st : Store) (v : Vehicle) :
    v ∈ search_both_filters category branch_id start_date end_date st ↔
      v ∈ search_category_only category start_date end_date st
        ∧ v ∈ search_branch_only branch_id start_date end_date st := by
  have hcat : v ∈ search_category_only category start_date end_date st ↔
      v ∈ st.vehicles ∧ v.category = category
        ∧ v.id ∉ conflictingVehicleIds start_date end_date st.bookings := by
    unfold search_category_only
    rw [List.mem_filter, List.mem_filter]
    constructor
    · rintro ⟨⟨hv, hc⟩, hchk⟩
      exact ⟨hv, by simpa using hc, (availableViaSelfCheck_true_iff hv).mp hchk⟩
    · rintro ⟨hv, hc, hchk⟩
      exact ⟨⟨hv, by simpa using hc⟩, (availableViaSelfCheck_true_iff hv).mpr hchk⟩
  have hbr : v ∈ search_branch_only branch_id start_date end_date st ↔
      v ∈ st.vehicles ∧ v.branch_id = branch_id
        ∧ v.id ∉ conflictingVehicleIds start_date end_date st.bookings := by
    unfold search_branch_only
    rw [List.mem_filter, List.mem_filter]
    constructor
    · rintro ⟨⟨hv, hc⟩, hchk⟩
      exact ⟨hv, by simpa using hc, (availableViaSelfCheck_true_iff hv).mp hchk⟩
    · rintro ⟨hv, hc, hchk⟩
      exact ⟨⟨hv, by simpa using hc⟩, (availableViaSelfCheck_true_iff hv).mpr hchk⟩
  rw [search_both_filters, mem_get_available_vehicles_notin, hcat, hbr]
  tauto

/-! ## C10: persisted bookings are consistent with the fleet -/

/-- C10.  Every booking persisted by a successful `create_booking` references
a fleet vehicle of the requested category at the requested branch, stores
that same branch id, and satisfies `start_date ≤ end_date` with `start_date`
not before the date of the call. -/
theorem booking_consistent_with_fleet (today : Nat) (req : BookingCreate)
    (st : Store) (bk : Booking) (st' : Store)
    (h : create_booking today req st = .ok (bk, st')) :
    ∃ v ∈ st.vehicles, v.id = bk.vehicle_id ∧ v.category = req.category
      ∧ v.branch_id = req.branch_id ∧ bk.branch_id = req.branch_id
      ∧ bk.start_date ≤ bk.end_date ∧ today ≤ bk.start_date := by
  obtain ⟨sel, rest', hav, hse, hts, hbk, _⟩ := create_booking_ok_shape h
  have hsel : sel ∈ VehicleDB.get_available_vehicles req.category
      req.start_date req.end_date req.branch_id st := by
    rw [hav]; exact List.mem_cons_self _ _
  obtain ⟨hv, hcat, hbr, -⟩ := mem_get_available_vehicles.mp hsel
  exact ⟨sel, hv, by rw [hbk], hcat, hbr, by rw [hbk],
    by rw [hbk]; exact hse, by rw [hbk]; exact hts⟩

/-- Witness for C10: the booking committed on the twin store references
vehicle 3, Medium at branch 1, with ordered future dates. -/
theorem booking_consistent_with_fleet_witness :
    ∃ bk st', create_booking 4 twinReq twinStore = .ok (bk, st')
      ∧ ∃ v ∈ twinStore.vehicles, v.id = bk.vehicle_id
          ∧ v.category = twinReq.category ∧ v.branch_id = twinReq.branch_id
          ∧ bk.branch_id = twinReq.branch_id
          ∧ bk.start_date ≤ bk.end_date ∧ 4 ≤ bk.start_date :=
  ⟨_, _, rfl, booking_consistent_with_fleet 4 twinReq twinStore _ _ rfl⟩

end VanServices
